import Mathlib

/-!
Shallow embedding of the verification-policy store and the verification
handler of the playground repository (Go sources: `main.go`,
`api/go-verify.go`, `api/go-saveOptions.go`, `config/redis_config_store.go`,
and the standalone server file).

Go structs with pointer-typed optional fields are embedded with `Option`
fields (`nil` pointer / absent JSON field = `none`); Go `(value, error)`
return pairs become Lean pairs whose second component is `Option String`
(`none` = nil error); the mutable receiver of a store method becomes
explicit state passing (the method returns the new store alongside its
Go results).
-/

namespace Playground

/-- Embedding of the SDK struct `self.VerificationConfig` as the repository
uses it: `MinimumAge *int`, `Ofac *bool`, `ExcludedCountries []Country3LetterCode`
(a nil slice is `none`, country codes are their strings). -/
structure VerificationConfig where
  minimumAge : Option Int
  ofac : Option Bool
  excludedCountries : Option (List String)
deriving DecidableEq, Repr

/-- The literal default record both `GetConfig` implementations build for a
missing key: `self.VerificationConfig{MinimumAge: &18, Ofac: &true}`
(main.go lines 34-38, go-verify.go lines 52-57, redis_config_store.go
lines 114-118). -/
def defaultConfig : VerificationConfig :=
  { minimumAge := some 18, ofac := some true, excludedCountries := none }

/-- The Go zero value `self.VerificationConfig{}` returned next to a non-nil
error. -/
def zeroConfig : VerificationConfig :=
  { minimumAge := none, ofac := none, excludedCountries := none }

/-- Embedding of the in-memory `CustomConfigStore` (identical in `main.go`
and `api/go-verify.go`): its `configs map[string]self.VerificationConfig`
field, as a partial function from keys to records. -/
structure CustomConfigStore where
  configs : String → Option VerificationConfig

/-- Embedding of `NewCustomConfigStore`: an empty map. -/
def NewCustomConfigStore : CustomConfigStore :=
  { configs := fun _ => none }

/-- Embedding of `CustomConfigStore.GetConfig` (main.go lines 28-41,
go-verify.go lines 46-59): a missing key yields the default record with a
nil error; a present key yields the stored record.  The method takes the
read lock only, mutates nothing, so the returned store is the receiver. -/
def CustomConfigStore.GetConfig (c : CustomConfigStore) (id : String) :
    (VerificationConfig × Option String) × CustomConfigStore :=
  match c.configs id with
  | none => ((defaultConfig, none), c)
  | some config => ((config, none), c)

/-- Embedding of `CustomConfigStore.SetConfig` (main.go lines 44-51,
go-verify.go lines 62-69): records whether the key existed, overwrites it,
and returns `!existed` with a nil error. -/
def CustomConfigStore.SetConfig (c : CustomConfigStore) (id : String)
    (config : VerificationConfig) : (Bool × Option String) × CustomConfigStore :=
  let existed := (c.configs id).isSome
  ((!existed, none), { configs := fun k => if k = id then some config else c.configs k })

/-- Go `len` on a string counts UTF-8 bytes; embed it as the sum of the
UTF-8 sizes of the characters. -/
def goStringLen (s : String) : Nat :=
  s.data.foldl (fun n ch => n + ch.utf8Size) 0

/-- Embedding of `CustomConfigStore.GetActionId` (main.go lines 54-65,
go-verify.go lines 72-78, both identical): data longer than 10 bytes routes
to the premium key, everything else to the standard key; the user
identifier is ignored. -/
def CustomConfigStore.GetActionId (_userIdentifier userDefinedData : String) :
    String × Option String :=
  if 10 < goStringLen userDefinedData then ("premium-user-config", none)
  else ("standard-user-config", none)

/-! ## The durable (Redis-backed) store, `config/redis_config_store.go` -/

/-- A JSON value, the parse tree of the UTF-8 text stored under a Redis key.
Numbers are restricted to integers, which is all the wire format of the
policy record carries. -/
inductive Json where
  | null : Json
  | bool (b : Bool) : Json
  | num (n : Int) : Json
  | str (s : String) : Json
  | arr (elems : List Json) : Json
  | obj (fields : List (String × Json)) : Json

/-- The raw bytes stored under a Redis key: either text that parses as JSON
(kept as its parse tree) or text that does not parse at all. -/
inductive StoredValue where
  | parsed (j : Json) : StoredValue
  | garbage (raw : String) : StoredValue

/-- Embedding of `json.Marshal` on `self.VerificationConfig`: a flat JSON
object with the optional fields `minimumAge`, `ofac`, `excludedCountries`
(spec section 6 wire format); a nil pointer or nil slice contributes no
field. -/
def marshalConfig (c : VerificationConfig) : Json :=
  Json.obj
    ((match c.minimumAge with
      | some n => [("minimumAge", Json.num n)]
      | none => []) ++
     (match c.ofac with
      | some b => [("ofac", Json.bool b)]
      | none => []) ++
     (match c.excludedCountries with
      | some l => [("excludedCountries", Json.arr (l.map Json.str))]
      | none => []))

/-- Look up a field of a JSON object, first occurrence wins. -/
def jsonField (fields : List (String × Json)) (key : String) : Option Json :=
  (fields.find? (fun p => p.1 = key)).map (fun p => p.2)

/-- Decoding an optional integer field, Go-style: an absent field or a JSON
null leaves the pointer nil; a number fills it; any other shape is an
unmarshal type error. -/
def decodeOptInt : Option Json → Except String (Option Int)
  | none => Except.ok none
  | some Json.null => Except.ok none
  | some (Json.num n) => Except.ok (some n)
  | some _ => Except.error "cannot unmarshal into field of type int"

/-- Decoding an optional boolean field, Go-style. -/
def decodeOptBool : Option Json → Except String (Option Bool)
  | none => Except.ok none
  | some Json.null => Except.ok none
  | some (Json.bool b) => Except.ok (some b)
  | some _ => Except.error "cannot unmarshal into field of type bool"

/-- Decoding a JSON array of strings element by element, Go-style. -/
def decodeStrings : List Json → Except String (List String)
  | [] => Except.ok []
  | Json.str s :: rest =>
      match decodeStrings rest with
      | Except.ok l => Except.ok (s :: l)
      | Except.error e => Except.error e
  | _ :: _ => Except.error "cannot unmarshal into field of type string"

/-- Decoding an optional string-slice field, Go-style: absent or null leaves
the slice nil; an array decodes element-wise; any other shape fails. -/
def decodeOptStrList : Option Json → Except String (Option (List String))
  | none => Except.ok none
  | some Json.null => Except.ok none
  | some (Json.arr elems) =>
      match decodeStrings elems with
      | Except.ok l => Except.ok (some l)
      | Except.error e => Except.error e
  | some _ => Except.error "cannot unmarshal into field of type slice"

/-- Embedding of `json.Unmarshal` into `self.VerificationConfig`: the value
must be a JSON object; the three known fields are decoded with their Go
types, unknown fields are ignored, absent fields keep the zero (nil)
value. -/
def unmarshalConfig : Json → Except String VerificationConfig
  | Json.obj fields =>
      match decodeOptInt (jsonField fields "minimumAge") with
      | Except.error e => Except.error e
      | Except.ok ma =>
        match decodeOptBool (jsonField fields "ofac") with
        | Except.error e => Except.error e
        | Except.ok ofa =>
          match decodeOptStrList (jsonField fields "excludedCountries") with
          | Except.error e => Except.error e
          | Except.ok ec =>
              Except.ok { minimumAge := ma, ofac := ofa, excludedCountries := ec }
  | _ => Except.error "cannot unmarshal into Go value of type VerificationConfig"

/-- Unmarshalling the raw stored bytes: unparseable text is an immediate
syntax error, parseable text is decoded by `unmarshalConfig`. -/
def unmarshalStored : StoredValue → Except String VerificationConfig
  | StoredValue.parsed j => unmarshalConfig j
  | StoredValue.garbage _ => Except.error "invalid character in JSON input"

/-- Embedding of `KVConfigStore` (redis_config_store.go): the Redis keyspace
it owns, as a partial function from keys to stored byte strings. -/
structure KVConfigStore where
  redis : String → Option StoredValue

/-- Embedding of `KVConfigStore.GetActionId` (redis_config_store.go lines
81-83): it returns the user identifier unchanged and ignores the
user-defined data. -/
def KVConfigStore.GetActionId (userIdentifier _userDefinedData : String) :
    String × Option String :=
  (userIdentifier, none)

/-- Embedding of `KVConfigStore.SetConfig` (redis_config_store.go lines
85-98): marshal the record, store the JSON text under the key with no
expiration, and return `(true, nil)` on success.  Marshalling of this
struct cannot fail, and a healthy Redis write succeeds, so the success
path is the only one. -/
def KVConfigStore.SetConfig (kv : KVConfigStore) (id : String)
    (config : VerificationConfig) : (Bool × Option String) × KVConfigStore :=
  ((true, none),
   { redis := fun k =>
       if k = id then some (StoredValue.parsed (marshalConfig config)) else kv.redis k })

/-- Embedding of `KVConfigStore.GetConfig` (redis_config_store.go lines
109-130): a missing key (`redis.Nil`) yields the default record with a nil
error; a present key is unmarshalled, and an unmarshal failure returns the
zero record together with a wrapped non-nil error.  Reading mutates
nothing. -/
def KVConfigStore.GetConfig (kv : KVConfigStore) (id : String) :
    (VerificationConfig × Option String) × KVConfigStore :=
  match kv.redis id with
  | none => ((defaultConfig, none), kv)
  | some v =>
      match unmarshalStored v with
      | Except.ok config => ((config, none), kv)
      | Except.error e => ((zeroConfig, some ("failed to unmarshal config: " ++ e)), kv)

/-! ## The verification handler, `api/go-verify.go` -/

/-- Embedding of the SDK enumeration `self.AttestationId` as the repository
uses it: the two allowed attestation kinds. -/
inductive AttestationId where
  | passport : AttestationId
  | euCard : AttestationId
deriving DecidableEq, Repr

/-- Embedding of the `switch req.AttestationID` at go-verify.go lines
201-210: `"passport"` and `"eucard"` map to their kinds, and any other
string falls through to the passport default. -/
def parseAttestationId (s : String) : AttestationId :=
  if s = "passport" then AttestationId.passport
  else if s = "eucard" then AttestationId.euCard
  else AttestationId.passport

/-- Embedding of the parsed `VerifyRequest` body (go-verify.go lines 16-22):
a missing `attestationId` decodes to the empty string, the three
`interface\x7b\x7d` fields decode to nil (`none`) when missing, and a
missing `userId` decodes to the empty string. -/
structure VerifyRequest where
  attestationId : String
  proof : Option Json
  publicSignals : Option Json
  userContextData : Option Json
  userId : String

/-- Embedding of the SDK value `verifier.Verify` returns on the non-error
path: a possibly-nil result holding the validity detail the SDK reports
and the disclosed payload.  GoVerify never reads `isValidDetails`; it only
tests the result against nil. -/
structure VerificationResult where
  isValidDetails : Bool
  discloseOutput : String
deriving DecidableEq, Repr

/-- One call to the external verifier, with the arguments GoVerify passes:
the (possibly defaulted) user id, the attestation kinds, and the
user-context payload it marshals into the context string. -/
structure VerifierCall where
  userId : String
  attestationIds : List AttestationId
  userContextData : Json

/-- Outcome of the external `verifier.Verify` collaborator: a hard error, or
success with a possibly-nil result. -/
inductive VerifierOutcome where
  | err (msg : String) : VerifierOutcome
  | ok (result : Option VerificationResult) : VerifierOutcome

/-- The `verificationOptions` object GoVerify builds at lines 260-270: each
entry is present exactly when the corresponding config field is non-nil,
except `excludedCountries`, present only when the slice is non-empty. -/
structure VerificationOptions where
  minimumAge : Option Int
  ofac : Option Bool
  excludedCountries : Option (List String)
deriving DecidableEq, Repr

/-- Embedding of the option-building block at go-verify.go lines 260-270. -/
def buildVerificationOptions (c : VerificationConfig) : VerificationOptions :=
  { minimumAge := c.minimumAge
  , ofac := c.ofac
  , excludedCountries :=
      match c.excludedCountries with
      | some l => if 0 < l.length then some l else none
      | none => none }

/-- Embedding of the JSON body GoVerify writes back (go-verify.go lines
24-30): the `credentialSubject` field is assigned the whole verifier
result when populated. -/
structure VerifyResponse where
  status : String
  result : Bool
  message : Option String
  credentialSubject : Option VerificationResult
  verificationOptions : Option VerificationOptions
deriving DecidableEq, Repr

/-- A run of the handler: the response it writes plus the calls it made to
its two collaborators, in order. -/
structure HandlerTrace where
  response : VerifyResponse
  verifierCalls : List VerifierCall
  storeGetCalls : List String

/-- Embedding of `GoVerify` (go-verify.go lines 131-278) from the
body-validation step on, parameterized by its two collaborators: the
external verifier and the config store's `GetConfig` (the deployed handler
instantiates the latter with `CustomConfigStore.GetConfig`, which never
returns an error).  Faithful points: validation rejects an empty
`attestationId` or a nil `proof`, `publicSignals` or `userContextData`
before any collaborator call; an empty `userId` is replaced by
`"anonymous-user"`; `isValid` is computed solely as `result != nil`
(line 242-245), ignoring the validity detail inside the result; the
`status` field is `"success"` on every non-error verifier outcome
(line 249); and a config-store error merely skips the
`verificationOptions` block (line 259). -/
def GoVerify (req : VerifyRequest) (verify : VerifierCall → VerifierOutcome)
    (storeGet : String → VerificationConfig × Option String) : HandlerTrace :=
  if req.attestationId = "" ∨ req.proof.isNone ∨ req.publicSignals.isNone ∨
      req.userContextData.isNone then
    { response :=
        { status := "error"
        , result := false
        , message := some "AttestationID, Proof, PublicSignals, and UserContextData are required"
        , credentialSubject := none
        , verificationOptions := none }
    , verifierCalls := []
    , storeGetCalls := [] }
  else
    let userID := if req.userId = "" then "anonymous-user" else req.userId
    let attId := parseAttestationId req.attestationId
    let call : VerifierCall :=
      { userId := userID
      , attestationIds := [attId]
      , userContextData := (req.userContextData).getD Json.null }
    match verify call with
    | VerifierOutcome.err msg =>
        { response :=
            { status := "error"
            , result := false
            , message := some ("Verification failed: " ++ msg)
            , credentialSubject := none
            , verificationOptions := none }
        , verifierCalls := [call]
        , storeGetCalls := [] }
    | VerifierOutcome.ok none =>
        { response :=
            { status := "success"
            , result := false
            , message := some "Verification failed"
            , credentialSubject := none
            , verificationOptions := none }
        , verifierCalls := [call]
        , storeGetCalls := [] }
    | VerifierOutcome.ok (some r) =>
        let lookup := storeGet userID
        let opts :=
          if lookup.2 = none then some (buildVerificationOptions lookup.1) else none
        { response :=
            { status := "success"
            , result := true
            , message := some "Verification successful"
            , credentialSubject := some r
            , verificationOptions := opts }
        , verifierCalls := [call]
        , storeGetCalls := [userID] }

/-! ## The disclosure filter -/

/-- Embedding of the struct `SelfAppDisclosureConfig` declared at
redis_config_store.go lines 17-28: the seven per-field disclosure toggles
together with the policy fields, every one optional. -/
structure SelfAppDisclosureConfig where
  issuing_state : Option Bool
  name : Option Bool
  passport_number : Option Bool
  nationality : Option Bool
  date_of_birth : Option Bool
  gender : Option Bool
  expiry_date : Option Bool
  ofac : Option Bool
  excludedCountries : Option (List String)
  minimumAge : Option Int
deriving DecidableEq, Repr

/-- The verifier-supplied credential subject: one string value per
disclosable field. -/
structure CredentialSubject where
  issuingState : String
  name : String
  nationality : String
  dateOfBirth : String
  passportNumber : String
  gender : String
  expiryDate : String
deriving DecidableEq, Repr

/-- The sentinel value a redacted field carries. -/
def notDisclosed : String := "Not disclosed"

/-- Modelled from the spec: the repository's DisclosureFilter `Redact` step
is not among the Go sources under src (the Go handler returns the verifier
result unfiltered, a self-described placeholder), so it is taken from the
spec's own algorithm (section 4.3): for each of the seven disclosable
fields, copy the verifier-supplied value when the record's toggle for that
field is true, and replace it with the sentinel otherwise, a missing
toggle counting as false (section 3). -/
def Redact (subject : CredentialSubject) (record : SelfAppDisclosureConfig) :
    CredentialSubject :=
  { issuingState :=
      if record.issuing_state.getD false then subject.issuingState else notDisclosed
  , name := if record.name.getD false then subject.name else notDisclosed
  , nationality :=
      if record.nationality.getD false then subject.nationality else notDisclosed
  , dateOfBirth :=
      if record.date_of_birth.getD false then subject.dateOfBirth else notDisclosed
  , passportNumber :=
      if record.passport_number.getD false then subject.passportNumber else notDisclosed
  , gender := if record.gender.getD false then subject.gender else notDisclosed
  , expiryDate :=
      if record.expiry_date.getD false then subject.expiryDate else notDisclosed }

/-! ## Helper lemmas -/

/-- Decoding a list of JSON strings built from a string list recovers the
list. -/
theorem decodeStrings_map_str (l : List String) :
    decodeStrings (l.map Json.str) = Except.ok l := by
  induction l with
  | nil => rfl
  | cons x xs ih => simp [decodeStrings, ih]

/-- Unmarshalling a marshalled record recovers the record exactly: present
fields keep their values and absent fields stay absent. -/
theorem unmarshalConfig_marshalConfig (c : VerificationConfig) :
    unmarshalConfig (marshalConfig c) = Except.ok c := by
  obtain ⟨ma, ofa, ec⟩ := c
  rcases ma with _ | n <;> rcases ofa with _ | b <;> rcases ec with _ | l <;>
    simp [marshalConfig, unmarshalConfig, jsonField, List.find?,
      decodeOptInt, decodeOptBool, decodeOptStrList, decodeStrings_map_str]

/-! ## Claims -/

/-- C1: for every credential subject and every policy record whose seven
disclosure toggles are all false, the disclosure-filtering step maps every
one of the seven disclosable fields to the literal sentinel string
"Not disclosed", regardless of the values the verifier supplied. -/
theorem redact_all_toggles_false (subject : CredentialSubject)
    (record : SelfAppDisclosureConfig)
    (h1 : record.issuing_state.getD false = false)
    (h2 : record.name.getD false = false)
    (h3 : record.passport_number.getD false = false)
    (h4 : record.nationality.getD false = false)
    (h5 : record.date_of_birth.getD false = false)
    (h6 : record.gender.getD false = false)
    (h7 : record.expiry_date.getD false = false) :
    Redact subject record =
      { issuingState := notDisclosed
      , name := notDisclosed
      , nationality := notDisclosed
      , dateOfBirth := notDisclosed
      , passportNumber := notDisclosed
      , gender := notDisclosed
      , expiryDate := notDisclosed } := by
  simp [Redact, h1, h2, h3, h4, h5, h6, h7]

/-- Witness for C1: a record with all seven toggles set to false redacts a
fully populated subject to the sentinel in every field. -/
theorem redact_all_toggles_false_witness :
    Redact
        { issuingState := "FRA", name := "Alice Martin", nationality := "FRA"
        , dateOfBirth := "1990-01-01", passportNumber := "P1234567"
        , gender := "F", expiryDate := "2030-01-01" }
        { issuing_state := some false, name := some false
        , passport_number := some false, nationality := some false
        , date_of_birth := some false, gender := some false
        , expiry_date := some false, ofac := some true
        , excludedCountries := some ["RUS", "IRN"], minimumAge := some 21 } =
      { issuingState := notDisclosed
      , name := notDisclosed
      , nationality := notDisclosed
      , dateOfBirth := notDisclosed
      , passportNumber := notDisclosed
      , gender := notDisclosed
      , expiryDate := notDisclosed } :=
  redact_all_toggles_false _ _ rfl rfl rfl rfl rfl rfl rfl

/-- C2: for every key that has never been written, GetConfig returns the
fixed default record (minimumAge 18, ofac true, no excluded countries) with
a nil error, leaves the store unchanged, and a later read of the same key
still takes the not-found branch; this holds for the in-memory store and
for the durable store alike. -/
theorem getConfig_missing_key_returns_default (s : CustomConfigStore)
    (kv : KVConfigStore) (id : String)
    (hs : s.configs id = none) (hkv : kv.redis id = none) :
    CustomConfigStore.GetConfig s id =
      (({ minimumAge := some 18, ofac := some true, excludedCountries := none }, none), s)
    ∧ (CustomConfigStore.GetConfig (CustomConfigStore.GetConfig s id).2 id).1 =
      ({ minimumAge := some 18, ofac := some true, excludedCountries := none }, none)
    ∧ KVConfigStore.GetConfig kv id =
      (({ minimumAge := some 18, ofac := some true, excludedCountries := none }, none), kv)
    ∧ (KVConfigStore.GetConfig (KVConfigStore.GetConfig kv id).2 id).1 =
      ({ minimumAge := some 18, ofac := some true, excludedCountries := none }, none) := by
  refine ⟨?_, ?_, ?_, ?_⟩ <;>
    simp [CustomConfigStore.GetConfig, KVConfigStore.GetConfig, hs, hkv, defaultConfig]

/-- Witness for C2: reading an untouched key of a fresh store behaves as the
theorem states. -/
theorem getConfig_missing_key_returns_default_witness :
    CustomConfigStore.GetConfig NewCustomConfigStore "user-1" =
      (({ minimumAge := some 18, ofac := some true, excludedCountries := none }, none),
        NewCustomConfigStore)
    ∧ (CustomConfigStore.GetConfig
        (CustomConfigStore.GetConfig NewCustomConfigStore "user-1").2 "user-1").1 =
      ({ minimumAge := some 18, ofac := some true, excludedCountries := none }, none)
    ∧ KVConfigStore.GetConfig { redis := fun _ => none } "user-1" =
      (({ minimumAge := some 18, ofac := some true, excludedCountries := none }, none),
        { redis := fun _ => none })
    ∧ (KVConfigStore.GetConfig
        (KVConfigStore.GetConfig { redis := fun _ => none } "user-1").2 "user-1").1 =
      ({ minimumAge := some 18, ofac := some true, excludedCountries := none }, none) :=
  getConfig_missing_key_returns_default NewCustomConfigStore { redis := fun _ => none }
    "user-1" rfl rfl

/-- C3: writing any record under any key and reading the same key back
returns a record equal in all fields to the one written, with absent
optional fields still absent, for the in-memory store and for the durable
store (which round-trips through its JSON wire format). -/
theorem setConfig_getConfig_roundtrip (s : CustomConfigStore) (kv : KVConfigStore)
    (id : String) (config : VerificationConfig) :
    (CustomConfigStore.GetConfig (CustomConfigStore.SetConfig s id config).2 id).1 =
      (config, none)
    ∧ (KVConfigStore.GetConfig (KVConfigStore.SetConfig kv id config).2 id).1 =
      (config, none) := by
  constructor
  · simp [CustomConfigStore.GetConfig, CustomConfigStore.SetConfig]
  · simp [KVConfigStore.GetConfig, KVConfigStore.SetConfig, unmarshalStored,
      unmarshalConfig_marshalConfig]

/-- Witness for C3: the spec's own scenario, writing minimumAge 21,
excludedCountries RUS and IRN, ofac true under the premium key and reading
it back exactly, on both stores. -/
theorem setConfig_getConfig_roundtrip_witness :
    (CustomConfigStore.GetConfig
      (CustomConfigStore.SetConfig NewCustomConfigStore "premium-user-config"
        { minimumAge := some 21, ofac := some true
        , excludedCountries := some ["RUS", "IRN"] }).2 "premium-user-config").1 =
      ({ minimumAge := some 21, ofac := some true
       , excludedCountries := some ["RUS", "IRN"] }, none)
    ∧ (KVConfigStore.GetConfig
      (KVConfigStore.SetConfig { redis := fun _ => none } "premium-user-config"
        { minimumAge := some 21, ofac := some true
        , excludedCountries := some ["RUS", "IRN"] }).2 "premium-user-config").1 =
      ({ minimumAge := some 21, ofac := some true
       , excludedCountries := some ["RUS", "IRN"] }, none) :=
  setConfig_getConfig_roundtrip NewCustomConfigStore { redis := fun _ => none }
    "premium-user-config"
    { minimumAge := some 21, ofac := some true, excludedCountries := some ["RUS", "IRN"] }

/-- C4 counterexample: the claim asserts that every store variant resolves a
context string of at most 10 characters to the standard-tier key, but the
durable variant's resolver returns the user identifier unchanged. -/
theorem getActionId_kv_variant_counterexample :
    goStringLen "short" ≤ 10
    ∧ KVConfigStore.GetActionId "user-1" "short" ≠ ("standard-user-config", none) := by
  constructor
  · decide
  · decide

/-- C4 amended: the two in-memory store variants resolve a context string of
Go length at most 10 to the standard-tier key and one of Go length greater
than 10 to the premium-tier key, so their tier flips exactly between
lengths 10 and 11; the durable variant instead returns the user identifier
unchanged, whatever the context length. -/
theorem getActionId_tiering_amended (uid ud : String) :
    (goStringLen ud ≤ 10 →
      CustomConfigStore.GetActionId uid ud = ("standard-user-config", none))
    ∧ (10 < goStringLen ud →
      CustomConfigStore.GetActionId uid ud = ("premium-user-config", none))
    ∧ KVConfigStore.GetActionId uid ud = (uid, none) := by
  refine ⟨fun h => ?_, fun h => ?_, rfl⟩
  · simp [CustomConfigStore.GetActionId, Nat.not_lt.mpr h]
  · simp [CustomConfigStore.GetActionId, h]

/-- Witness for C4 amended: the in-memory resolver flips between a 10-byte
and an 11-byte context string, and the durable resolver echoes the
identifier. -/
theorem getActionId_tiering_amended_witness :
    CustomConfigStore.GetActionId "u" "aaaaaaaaaa" = ("standard-user-config", none)
    ∧ CustomConfigStore.GetActionId "u" "aaaaaaaaaaa" = ("premium-user-config", none)
    ∧ KVConfigStore.GetActionId "alice" "aaaaaaaaaa" = ("alice", none) :=
  ⟨(getActionId_tiering_amended "u" "aaaaaaaaaa").1 (by decide),
   (getActionId_tiering_amended "u" "aaaaaaaaaaa").2.1 (by decide),
   (getActionId_tiering_amended "alice" "aaaaaaaaaa").2.2⟩

/-- C5 counterexample: the claim asserts that a successful SetConfig returns
wasCreated true only when the key was absent, but overwriting an existing
key of the durable store still returns true. -/
theorem setConfig_wasCreated_kv_counterexample :
    ((KVConfigStore.SetConfig { redis := fun _ => none } "k" defaultConfig).2.redis
        "k").isSome = true
    ∧ (KVConfigStore.SetConfig
        (KVConfigStore.SetConfig { redis := fun _ => none } "k" defaultConfig).2
        "k" defaultConfig).1 = (true, none) :=
  ⟨rfl, rfl⟩

/-- C5 amended: the in-memory store's SetConfig returns wasCreated true
exactly when the key was absent immediately before the write, while the
durable store's SetConfig returns true on every successful write,
regardless of whether the key existed. -/
theorem setConfig_wasCreated_amended (s : CustomConfigStore) (kv : KVConfigStore)
    (id : String) (config : VerificationConfig) :
    (CustomConfigStore.SetConfig s id config).1 = ((s.configs id).isNone, none)
    ∧ (KVConfigStore.SetConfig kv id config).1 = (true, none) := by
  constructor
  · cases h : s.configs id <;> simp [CustomConfigStore.SetConfig, h]
  · rfl

/-- Witness for C5 amended: a first write to a fresh in-memory store reports
creation, and a durable write reports true. -/
theorem setConfig_wasCreated_amended_witness :
    (CustomConfigStore.SetConfig NewCustomConfigStore "k" defaultConfig).1 =
      ((NewCustomConfigStore.configs "k").isNone, none)
    ∧ (KVConfigStore.SetConfig { redis := fun _ => none } "k" defaultConfig).1 =
      (true, none) :=
  setConfig_wasCreated_amended NewCustomConfigStore { redis := fun _ => none } "k"
    defaultConfig

/-- C6: the claim says a verifier run that reports the proof invalid yields
status "error", result false, no credential subject and no store lookup;
evaluating the handler at such a run (verifier succeeds, result carries a
false validity detail) shows it instead reports status "success" with
result true, populates the credential subject with the raw verifier result,
and performs the store lookup, because it computes validity solely from the
result being non-nil. -/
theorem goVerify_invalid_proof_reports_success :
    GoVerify
      { attestationId := "passport", proof := some Json.null
      , publicSignals := some Json.null, userContextData := some (Json.str "ctx")
      , userId := "user-1" }
      (fun _ => VerifierOutcome.ok
        (some { isValidDetails := false, discloseOutput := "raw disclose output" }))
      (fun _ => (defaultConfig, none)) =
    { response :=
        { status := "success"
        , result := true
        , message := some "Verification successful"
        , credentialSubject :=
            some { isValidDetails := false, discloseOutput := "raw disclose output" }
        , verificationOptions :=
            some { minimumAge := some 18, ofac := some true, excludedCountries := none } }
    , verifierCalls :=
        [{ userId := "user-1", attestationIds := [AttestationId.passport]
         , userContextData := Json.str "ctx" }]
    , storeGetCalls := ["user-1"] } := rfl

/-- C7: for every verification request missing userContextData (or any of
attestationId, proof, publicSignals), the handler returns the
validation-error response (status "error", result false, no credential
data) and makes zero verifier calls and zero store calls. -/
theorem goVerify_validation_short_circuits (req : VerifyRequest)
    (verify : VerifierCall → VerifierOutcome)
    (storeGet : String → VerificationConfig × Option String)
    (h : req.userContextData = none ∨ req.attestationId = "" ∨
      req.proof = none ∨ req.publicSignals = none) :
    (GoVerify req verify storeGet).response.status = "error"
    ∧ (GoVerify req verify storeGet).response.result = false
    ∧ (GoVerify req verify storeGet).response.credentialSubject = none
    ∧ (GoVerify req verify storeGet).response.verificationOptions = none
    ∧ (GoVerify req verify storeGet).verifierCalls = []
    ∧ (GoVerify req verify storeGet).storeGetCalls = [] := by
  have hcond : req.attestationId = "" ∨ req.proof.isNone = true ∨
      req.publicSignals.isNone = true ∨ req.userContextData.isNone = true := by
    rcases h with h | h | h | h <;> simp [h]
  simp only [GoVerify]
  rw [if_pos hcond]
  exact ⟨rfl, rfl, rfl, rfl, rfl, rfl⟩

/-- Witness for C7: a request with a nil userContextData gets the
validation-error response with no collaborator calls. -/
theorem goVerify_validation_short_circuits_witness :
    (GoVerify
      { attestationId := "passport", proof := some Json.null
      , publicSignals := some Json.null, userContextData := none, userId := "user-1" }
      (fun _ => VerifierOutcome.ok
        (some { isValidDetails := true, discloseOutput := "raw" }))
      (fun _ => (defaultConfig, none))).response.status = "error"
    ∧ (GoVerify
      { attestationId := "passport", proof := some Json.null
      , publicSignals := some Json.null, userContextData := none, userId := "user-1" }
      (fun _ => VerifierOutcome.ok
        (some { isValidDetails := true, discloseOutput := "raw" }))
      (fun _ => (defaultConfig, none))).verifierCalls = []
    ∧ (GoVerify
      { attestationId := "passport", proof := some Json.null
      , publicSignals := some Json.null, userContextData := none, userId := "user-1" }
      (fun _ => VerifierOutcome.ok
        (some { isValidDetails := true, discloseOutput := "raw" }))
      (fun _ => (defaultConfig, none))).storeGetCalls = [] := by
  have h := goVerify_validation_short_circuits
    { attestationId := "passport", proof := some Json.null
    , publicSignals := some Json.null, userContextData := none, userId := "user-1" }
    (fun _ => VerifierOutcome.ok
      (some { isValidDetails := true, discloseOutput := "raw" }))
    (fun _ => (defaultConfig, none))
    (Or.inl rfl)
  exact ⟨h.1, h.2.2.2.2.1, h.2.2.2.2.2⟩

/-- C8 counterexample: the claim says a store failure after a valid proof
yields a server-side error response; at a concrete request where the store
errors, the handler instead reports status "success" with result true, the
raw credential subject, and silently omitted verificationOptions. -/
theorem goVerify_store_error_counterexample :
    (GoVerify
      { attestationId := "passport", proof := some Json.null
      , publicSignals := some Json.null, userContextData := some (Json.str "ctx")
      , userId := "user-1" }
      (fun _ => VerifierOutcome.ok
        (some { isValidDetails := true, discloseOutput := "raw" }))
      (fun _ => (zeroConfig, some "failed to get config from Redis: i/o timeout"))).response =
    { status := "success"
    , result := true
    , message := some "Verification successful"
    , credentialSubject := some { isValidDetails := true, discloseOutput := "raw" }
    , verificationOptions := none } := rfl

/-- C8 amended: when the proof is valid but the store's GetConfig returns an
error, the handler still performs the lookup yet reports plain success: the
response has status "success", result true, the raw credential subject, and
no verificationOptions field; no internal-fault response shape exists. -/
theorem goVerify_store_error_amended (req : VerifyRequest)
    (verify : VerifierCall → VerifierOutcome)
    (storeGet : String → VerificationConfig × Option String) (r : VerificationResult)
    (h1 : req.attestationId ≠ "") (h2 : req.proof.isSome = true)
    (h3 : req.publicSignals.isSome = true) (h4 : req.userContextData.isSome = true)
    (hv : ∀ c, verify c = VerifierOutcome.ok (some r))
    (hs : ∀ k, (storeGet k).2.isSome = true) :
    (GoVerify req verify storeGet).response =
      { status := "success", result := true, message := some "Verification successful"
      , credentialSubject := some r, verificationOptions := none }
    ∧ (GoVerify req verify storeGet).storeGetCalls ≠ [] := by
  obtain ⟨p, hp⟩ := Option.isSome_iff_exists.mp h2
  obtain ⟨ps, hps⟩ := Option.isSome_iff_exists.mp h3
  obtain ⟨uc, huc⟩ := Option.isSome_iff_exists.mp h4
  have hcond : ¬(req.attestationId = "" ∨ req.proof.isNone = true ∨
      req.publicSignals.isNone = true ∨ req.userContextData.isNone = true) := by
    simp [h1, hp, hps, huc]
  simp only [GoVerify]
  rw [if_neg hcond]
  rw [hv]
  have hopt : (storeGet (if req.userId = "" then "anonymous-user" else req.userId)).2 ≠
      none := by
    obtain ⟨a, ha⟩ := Option.isSome_iff_exists.mp
      (hs (if req.userId = "" then "anonymous-user" else req.userId))
    simp [ha]
  simp [hopt]

/-- Witness for C8 amended: a concrete valid-proof request against an
erroring store produces the silent-success response and a performed
lookup. -/
theorem goVerify_store_error_amended_witness :
    (GoVerify
      { attestationId := "passport", proof := some Json.null
      , publicSignals := some Json.null, userContextData := some (Json.str "ctx")
      , userId := "user-1" }
      (fun _ => VerifierOutcome.ok
        (some { isValidDetails := true, discloseOutput := "raw" }))
      (fun _ => (zeroConfig, some "io error"))).response =
      { status := "success", result := true, message := some "Verification successful"
      , credentialSubject := some { isValidDetails := true, discloseOutput := "raw" }
      , verificationOptions := none }
    ∧ (GoVerify
      { attestationId := "passport", proof := some Json.null
      , publicSignals := some Json.null, userContextData := some (Json.str "ctx")
      , userId := "user-1" }
      (fun _ => VerifierOutcome.ok
        (some { isValidDetails := true, discloseOutput := "raw" }))
      (fun _ => (zeroConfig, some "io error"))).storeGetCalls ≠ [] :=
  goVerify_store_error_amended
    { attestationId := "passport", proof := some Json.null
    , publicSignals := some Json.null, userContextData := some (Json.str "ctx")
    , userId := "user-1" }
    (fun _ => VerifierOutcome.ok
      (some { isValidDetails := true, discloseOutput := "raw" }))
    (fun _ => (zeroConfig, some "io error"))
    { isValidDetails := true, discloseOutput := "raw" }
    (by decide) rfl rfl rfl (fun _ => rfl) (fun _ => rfl)

/-- C9: for every key whose stored value does not unmarshal as a policy
record, the durable store's GetConfig returns a non-nil error and does not
return the process-wide default record in place of the corrupt value. -/
theorem kvGetConfig_corrupt_value_errors (kv : KVConfigStore) (id : String)
    (v : StoredValue) (e : String)
    (hv : kv.redis id = some v) (hbad : unmarshalStored v = Except.error e) :
    ((KVConfigStore.GetConfig kv id).1.2).isSome = true
    ∧ (KVConfigStore.GetConfig kv id).1.1 ≠ defaultConfig
    ∧ (KVConfigStore.GetConfig kv id).1 ≠ (defaultConfig, none) := by
  refine ⟨?_, ?_, ?_⟩ <;>
    simp [KVConfigStore.GetConfig, hv, hbad, zeroConfig, defaultConfig]

/-- Witness for C9: a key holding unparseable text makes GetConfig fail
rather than default. -/
theorem kvGetConfig_corrupt_value_errors_witness :
    ((KVConfigStore.GetConfig
        { redis := fun k =>
            if k = "bad-key" then some (StoredValue.garbage "not json") else none }
        "bad-key").1.2).isSome = true
    ∧ (KVConfigStore.GetConfig
        { redis := fun k =>
            if k = "bad-key" then some (StoredValue.garbage "not json") else none }
        "bad-key").1.1 ≠ defaultConfig
    ∧ (KVConfigStore.GetConfig
        { redis := fun k =>
            if k = "bad-key" then some (StoredValue.garbage "not json") else none }
        "bad-key").1 ≠ (defaultConfig, none) :=
  kvGetConfig_corrupt_value_errors
    { redis := fun k =>
        if k = "bad-key" then some (StoredValue.garbage "not json") else none }
    "bad-key" (StoredValue.garbage "not json") "invalid character in JSON input"
    (by simp) rfl

/-- C10: for every well-formed verification request whose userId is empty
and whose attestationId is neither "passport" nor "eucard", every verifier
call the handler makes carries the substituted identifier "anonymous-user"
and the passport attestation kind, and every store lookup uses
"anonymous-user" as its key. -/
theorem goVerify_default_user_and_attestation (req : VerifyRequest)
    (verify : VerifierCall → VerifierOutcome)
    (storeGet : String → VerificationConfig × Option String)
    (h1 : req.attestationId ≠ "") (h2 : req.proof.isSome = true)
    (h3 : req.publicSignals.isSome = true) (h4 : req.userContextData.isSome = true)
    (hid : req.userId = "")
    (ha1 : req.attestationId ≠ "passport") (ha2 : req.attestationId ≠ "eucard") :
    (∀ c ∈ (GoVerify req verify storeGet).verifierCalls,
      c.userId = "anonymous-user" ∧ c.attestationIds = [AttestationId.passport])
    ∧ ∀ k ∈ (GoVerify req verify storeGet).storeGetCalls, k = "anonymous-user" := by
  obtain ⟨p, hp⟩ := Option.isSome_iff_exists.mp h2
  obtain ⟨ps, hps⟩ := Option.isSome_iff_exists.mp h3
  obtain ⟨uc, huc⟩ := Option.isSome_iff_exists.mp h4
  have hcond : ¬(req.attestationId = "" ∨ req.proof.isNone = true ∨
      req.publicSignals.isNone = true ∨ req.userContextData.isNone = true) := by
    simp [h1, hp, hps, huc]
  simp only [GoVerify]
  rw [if_neg hcond]
  simp only [hid, if_pos rfl, parseAttestationId, if_neg ha1, if_neg ha2]
  constructor
  · intro c hc
    split at hc <;> simp at hc <;> simp [hc]
  · intro k hk
    split at hk <;> simp at hk
    exact hk

/-- Witness for C10: a request with empty userId and attestationId
"id-card" resolves to "anonymous-user" and the passport kind throughout. -/
theorem goVerify_default_user_and_attestation_witness :
    (∀ c ∈ (GoVerify
        { attestationId := "id-card", proof := some Json.null
        , publicSignals := some Json.null, userContextData := some (Json.str "ctx")
        , userId := "" }
        (fun _ => VerifierOutcome.ok
          (some { isValidDetails := true, discloseOutput := "raw" }))
        (fun _ => (defaultConfig, none))).verifierCalls,
      c.userId = "anonymous-user" ∧ c.attestationIds = [AttestationId.passport])
    ∧ ∀ k ∈ (GoVerify
        { attestationId := "id-card", proof := some Json.null
        , publicSignals := some Json.null, userContextData := some (Json.str "ctx")
        , userId := "" }
        (fun _ => VerifierOutcome.ok
          (some { isValidDetails := true, discloseOutput := "raw" }))
        (fun _ => (defaultConfig, none))).storeGetCalls,
      k = "anonymous-user" :=
  goVerify_default_user_and_attestation
    { attestationId := "id-card", proof := some Json.null
    , publicSignals := some Json.null, userContextData := some (Json.str "ctx")
    , userId := "" }
    (fun _ => VerifierOutcome.ok
      (some { isValidDetails := true, discloseOutput := "raw" }))
    (fun _ => (defaultConfig, none))
    (by decide) rfl rfl rfl rfl (by decide) (by decide)

end Playground
